import Mathlib

/-!
Shallow embedding of the three screenshot-capture scripts of the
repository (src/verify_landing.py, src/verify_landing_mobile.py,
src/verify_mobile.py).  Each script drives a headless browser through a
fixed linear sequence of actions; effectful browser calls are modelled by
an environment that says which navigations fail, which network-idle waits
time out, and which screenshot writes fail.  Running a script in an
environment yields the trace of attempted browser actions, the list of
screenshot files actually written, and whether an exception escaped the
routine uncaught.
-/

namespace OpenViber

/-- Configuration passed to playwright's browser.new_context: viewport
size plus optional device-emulation parameters.  Omitted keyword
arguments are modelled by the playwright defaults (no user agent
override, no device scale factor override, is_mobile and has_touch
false). -/
structure ContextConfig where
  viewportWidth : Nat
  viewportHeight : Nat
  userAgent : Option String
  deviceScaleFactor : Option Nat
  isMobile : Bool
  hasTouch : Bool
deriving DecidableEq

/-- One attempted browser action.  `goto` and `waitIdle` record the
timeout (in milliseconds) passed to the call; `waitIdle none` is a call
with playwright's default timeout. -/
inductive Event where
  | launch : Event
  | newContext : ContextConfig → Event
  | newPage : Event
  | goto : String → Nat → Event
  | waitIdle : Option Nat → Event
  | sleep : Nat → Event
  | screenshot : String → Event
  | closeBrowser : Event
deriving DecidableEq

/-- Environment of a run: which page.goto calls raise (by URL), which
wait_for_load_state calls time out (by URL of the current page), and
which page.screenshot calls raise (by output path). -/
structure Env where
  gotoFails : String → Bool
  idleTimesOut : String → Bool
  screenshotFails : String → Bool

/-- Result of running a script: the trace of attempted browser actions,
the screenshot files actually written to disk, and whether an exception
escaped the routine uncaught. -/
structure ScriptResult where
  trace : List Event
  files : List String
  uncaught : Bool
deriving DecidableEq

/-- The fixed route list PAGES of src/verify_mobile.py. -/
def PAGES : List String :=
  ["/",
   "/landing",
   "/docs",
   "/hub",
   "/login",
   "/onboarding",
   "/observability",
   "/tasks",
   "/vibers",
   "/settings/general"]

/-- BASE_URL of src/verify_mobile.py. -/
def BASE_URL : String := "http://localhost:6006"

/-- The single URL navigated to by both single-route scripts. -/
def LANDING_URL : String := "http://localhost:6006/landing"

/-- Context configuration requested by src/verify_landing.py line 8:
viewport 1440 by 3000, no device emulation. -/
def landing_context : ContextConfig :=
  ⟨1440, 3000, none, none, false, false⟩

/-- Context configuration requested by src/verify_landing_mobile.py
line 8: viewport 390 by 844, no further emulation parameters. -/
def landing_mobile_context : ContextConfig :=
  ⟨390, 844, none, none, false, false⟩

/-- Context configuration requested by src/verify_mobile.py lines 25-31:
viewport 390 by 844, iPhone user agent, device scale factor 3, mobile
and touch flags set. -/
def mobile_context : ContextConfig :=
  ⟨390, 844,
   some "Mozilla/5.0 (iPhone; CPU iPhone OS 14_4 like Mac OS X) AppleWebKit/605.1.15 (KHTML, like Gecko) Version/14.0.3 Mobile/15E148 Safari/604.1",
   some 3, true, true⟩

/-- Models the Python expression path.replace("/", "_"): the pattern is
the single character slash, so the replacement is a character map. -/
def replace_slashes (s : String) : String :=
  String.mk (s.toList.map (fun c => if c = '/' then '_' else c))

/-- Models the Python expression s.strip("_"): drop underscores from
both ends of the string. -/
def strip_underscores (s : String) : String :=
  String.mk
    (((s.toList.dropWhile (fun c => c = '_')).reverse.dropWhile
        (fun c => c = '_')).reverse)

/-- Filename derivation of src/verify_mobile.py lines 46-48: replace
slashes with underscores, strip underscores, and map an empty result to
"root". -/
def route_filename (path : String) : String :=
  let filename := strip_underscores (replace_slashes path)
  if filename = "" then "root" else filename

/-- Screenshot output path of src/verify_mobile.py line 49. -/
def screenshot_path (path : String) : String :=
  "verification/mobile/" ++ route_filename path ++ ".png"

/-- One iteration of the route loop of src/verify_mobile.py lines 34-53,
returning the attempted browser actions and the files written.  The
whole body is wrapped in except Exception, so nothing escapes; the
wait_for_load_state call is additionally wrapped in a bare except, so an
idle timeout falls through to the screenshot step. -/
def route_step (env : Env) (path : String) : List Event × List String :=
  let url := BASE_URL ++ path
  if env.gotoFails url then
    ([Event.goto url 60000], [])
  else
    let sp := screenshot_path path
    if env.screenshotFails sp then
      ([Event.goto url 60000, Event.waitIdle (some 10000),
        Event.screenshot sp], [])
    else
      ([Event.goto url 60000, Event.waitIdle (some 10000),
        Event.screenshot sp], [sp])

/-- src/verify_mobile.py, verify_mobile_pages: launch one browser,
create one mobile context and one page, loop over PAGES with per-route
error handling, close the browser after the loop.  No exception escapes
the routine. -/
def verify_mobile_pages (env : Env) : ScriptResult :=
  let steps := PAGES.map (route_step env)
  { trace := [Event.launch, Event.newContext mobile_context, Event.newPage]
      ++ (steps.map Prod.fst).flatten ++ [Event.closeBrowser]
    files := (steps.map Prod.snd).flatten
    uncaught := false }

/-- src/verify_landing.py, verify_landing: launch, desktop context, one
page, navigate with only the goto call guarded by try/except; the
network-idle wait and the screenshot are unguarded, so a failure there
escapes the routine uncaught and skips the final browser.close(). -/
def verify_landing (env : Env) : ScriptResult :=
  let pre := [Event.launch, Event.newContext landing_context, Event.newPage,
    Event.goto LANDING_URL 60000]
  if env.gotoFails LANDING_URL then
    { trace := pre ++ [Event.closeBrowser], files := [], uncaught := false }
  else if env.idleTimesOut LANDING_URL then
    { trace := pre ++ [Event.waitIdle none], files := [], uncaught := true }
  else if env.screenshotFails "verification_landing.png" then
    { trace := pre ++ [Event.waitIdle none, Event.sleep 3,
        Event.screenshot "verification_landing.png"]
      files := [], uncaught := true }
  else
    { trace := pre ++ [Event.waitIdle none, Event.sleep 3,
        Event.screenshot "verification_landing.png", Event.closeBrowser]
      files := ["verification_landing.png"], uncaught := false }

/-- src/verify_landing_mobile.py, verify_landing_mobile: identical
control flow to verify_landing with the mobile-viewport context and a
different output filename. -/
def verify_landing_mobile (env : Env) : ScriptResult :=
  let pre := [Event.launch, Event.newContext landing_mobile_context,
    Event.newPage, Event.goto LANDING_URL 60000]
  if env.gotoFails LANDING_URL then
    { trace := pre ++ [Event.closeBrowser], files := [], uncaught := false }
  else if env.idleTimesOut LANDING_URL then
    { trace := pre ++ [Event.waitIdle none], files := [], uncaught := true }
  else if env.screenshotFails "verification_landing_mobile.png" then
    { trace := pre ++ [Event.waitIdle none, Event.sleep 3,
        Event.screenshot "verification_landing_mobile.png"]
      files := [], uncaught := true }
  else
    { trace := pre ++ [Event.waitIdle none, Event.sleep 3,
        Event.screenshot "verification_landing_mobile.png",
        Event.closeBrowser]
      files := ["verification_landing_mobile.png"], uncaught := false }

/-- Projection of a goto event to its URL and timeout. -/
def asGoto : Event → Option (String × Nat)
  | Event.goto u t => some (u, t)
  | _ => none

/-- The navigation attempts of a run, in order: URL and timeout of every
goto event of the trace. -/
def gotoEvents (r : ScriptResult) : List (String × Nat) :=
  r.trace.filterMap asGoto

/-- Recognizer for browser-launch events. -/
def isLaunch : Event → Bool
  | Event.launch => true
  | _ => false

/-- Recognizer for context-creation events. -/
def isNewContext : Event → Bool
  | Event.newContext _ => true
  | _ => false

/-- Recognizer for page-creation events. -/
def isNewPage : Event → Bool
  | Event.newPage => true
  | _ => false

/-- Recognizer for screenshot-attempt events. -/
def isScreenshot : Event → Bool
  | Event.screenshot _ => true
  | _ => false

/-- Environment in which every browser action succeeds. -/
def env_ok : Env :=
  ⟨fun _ => false, fun _ => false, fun _ => false⟩

/-- Environment in which navigation to the /login route raises and every
other action succeeds. -/
def env_login_down : Env :=
  ⟨fun u => u == "http://localhost:6006/login", fun _ => false, fun _ => false⟩

/-- Environment in which every network-idle wait times out and every
other action succeeds. -/
def env_idle_timeout : Env :=
  ⟨fun _ => false, fun _ => true, fun _ => false⟩

/-- Environment in which every screenshot write raises and every other
action succeeds. -/
def env_screenshot_fail : Env :=
  ⟨fun _ => false, fun _ => false, fun _ => true⟩

/-- Environment in which every navigation raises: the server is
unreachable. -/
def env_server_down : Env :=
  ⟨fun _ => true, fun _ => false, fun _ => false⟩

/-- The files written by the route loop are exactly the screenshot paths
of the routes whose navigation and screenshot both succeed, in route
order. -/
lemma route_files_eq (env : Env) (ps : List String) :
    (ps.map (Prod.snd ∘ route_step env)).flatten
      = (ps.filter (fun p => !env.gotoFails (BASE_URL ++ p)
          && !env.screenshotFails (screenshot_path p))).map screenshot_path := by
  induction ps with
  | nil => simp
  | cons p ps ih =>
    simp only [List.map_cons, List.flatten_cons, List.filter_cons,
      Function.comp_apply, ih]
    cases hg : env.gotoFails (BASE_URL ++ p) <;>
      cases hs : env.screenshotFails (screenshot_path p) <;>
        simp [route_step, hg, hs]

/-- Every route of the loop contributes exactly one navigation attempt,
with the composed URL and the 60 second timeout, whatever the
environment does. -/
lemma route_gotos_eq (env : Env) (ps : List String) :
    (ps.map (List.filterMap asGoto ∘ Prod.fst ∘ route_step env)).flatten
      = ps.map (fun p => (BASE_URL ++ p, 60000)) := by
  induction ps with
  | nil => simp
  | cons p ps ih =>
    simp only [List.map_cons, List.flatten_cons, Function.comp_apply, ih]
    cases hg : env.gotoFails (BASE_URL ++ p) <;>
      cases hs : env.screenshotFails (screenshot_path p) <;>
        simp [route_step, hg, hs, asGoto]

/-- No iteration of the route loop launches a browser, creates a
context, or opens a page. -/
lemma route_step_countP_setup (env : Env) (p : String) (q : Event → Bool)
    (h1 : ∀ u t, q (Event.goto u t) = false)
    (h2 : ∀ t, q (Event.waitIdle t) = false)
    (h3 : ∀ f, q (Event.screenshot f) = false) :
    ((route_step env p).fst).countP q = 0 := by
  cases hg : env.gotoFails (BASE_URL ++ p) <;>
    cases hs : env.screenshotFails (screenshot_path p) <;>
      simp [route_step, hg, hs, List.countP_cons, h1, h2, h3]

/-- Aggregated over any route list, the loop body contains no
launch, context-creation, or page-creation events. -/
lemma loop_countP_setup (env : Env) (ps : List String) (q : Event → Bool)
    (h1 : ∀ u t, q (Event.goto u t) = false)
    (h2 : ∀ t, q (Event.waitIdle t) = false)
    (h3 : ∀ f, q (Event.screenshot f) = false) :
    (((ps.map (route_step env)).map Prod.fst).flatten).countP q = 0 := by
  induction ps with
  | nil => simp
  | cons p ps ih =>
    simp only [List.map_cons, List.flatten_cons, List.countP_append, ih]
    simp [route_step_countP_setup env p q h1 h2 h3]

/-- C1: In the multi-route runner, a failure in one route does not abort
the others.  For every environment, all ten navigations are attempted in
order, exactly the routes whose navigation (and screenshot write)
succeeds produce screenshot files, and the browser close is the last
action after the loop; in the concrete environment where only /login is
unreachable, exactly nine screenshot files are produced. -/
theorem claim1_multi_route_isolation :
    (∀ env : Env,
      gotoEvents (verify_mobile_pages env)
          = PAGES.map (fun p => (BASE_URL ++ p, 60000))
        ∧ (verify_mobile_pages env).files
          = (PAGES.filter (fun p => !env.gotoFails (BASE_URL ++ p)
              && !env.screenshotFails (screenshot_path p))).map screenshot_path
        ∧ (verify_mobile_pages env).trace.getLast? = some Event.closeBrowser)
    ∧ (verify_mobile_pages env_login_down).files.length = 9
    ∧ (verify_mobile_pages env_login_down).files
        = (PAGES.filter (fun p => p ≠ "/login")).map screenshot_path := by
  refine ⟨fun env => ⟨?_, ?_, ?_⟩, by decide, by decide⟩
  · simp [gotoEvents, verify_mobile_pages, List.filterMap_append,
      route_gotos_eq env PAGES, asGoto]
  · simp [verify_mobile_pages, route_files_eq env PAGES]
  · simp only [verify_mobile_pages]
    rw [List.getLast?_append_of_ne_nil _ (by simp)]
    rfl

/-- C3: Screenshot filenames of the multi-route runner are derived
deterministically from the route: slashes become underscores, leading
and trailing underscores are stripped, an empty result becomes "root";
/settings/general maps to settings_general.png and / maps to root.png
under verification/mobile/, and an all-success run writes exactly those
route-derived files. -/
theorem claim3_slug_derivation :
    route_filename "/settings/general" = "settings_general"
    ∧ route_filename "/" = "root"
    ∧ screenshot_path "/settings/general"
        = "verification/mobile/settings_general.png"
    ∧ screenshot_path "/" = "verification/mobile/root.png"
    ∧ (verify_mobile_pages env_ok).files =
        ["verification/mobile/root.png",
         "verification/mobile/landing.png",
         "verification/mobile/docs.png",
         "verification/mobile/hub.png",
         "verification/mobile/login.png",
         "verification/mobile/onboarding.png",
         "verification/mobile/observability.png",
         "verification/mobile/tasks.png",
         "verification/mobile/vibers.png",
         "verification/mobile/settings_general.png"] := by
  decide

/-- C10: On the fixed route list, every derived filename is non-empty
and slash-free, and the derivation is injective on the list: the ten
output paths are pairwise distinct files directly inside
verification/mobile/. -/
theorem claim10_filename_injectivity :
    (PAGES.map route_filename).Nodup
    ∧ (PAGES.map screenshot_path).Nodup
    ∧ ∀ p ∈ PAGES, route_filename p ≠ "" ∧ '/' ∉ (route_filename p).toList := by
  decide

/-- Witness for C10 at the concrete route /settings/general. -/
theorem claim10_witness :
    route_filename "/settings/general" ≠ ""
    ∧ '/' ∉ (route_filename "/settings/general").toList :=
  claim10_filename_injectivity.2.2 "/settings/general" (by decide)

/-- The trace of the multi-route runner, unfolded. -/
lemma verify_mobile_pages_trace (env : Env) :
    (verify_mobile_pages env).trace
      = [Event.launch, Event.newContext mobile_context, Event.newPage]
        ++ ((PAGES.map (route_step env)).map Prod.fst).flatten
        ++ [Event.closeBrowser] := rfl

/-- Counterexample to C2: in the single-route script verify_landing the
network-idle wait is unguarded, so in the environment where the idle
wait times out (and navigation succeeds) the run aborts with an uncaught
exception and no screenshot is attempted or written. -/
theorem claim2_counterexample :
    (verify_landing env_idle_timeout).uncaught = true
    ∧ (verify_landing env_idle_timeout).files = []
    ∧ (verify_landing env_idle_timeout).trace.countP isScreenshot = 0 := by
  decide

/-- C2 amended: only in the multi-route variant does a network-idle
timeout never abort the run: the whole run is invariant under the idle
environment, no exception ever escapes it, and an all-idle-timeout run
still writes all ten screenshots.  In the single-route variants the idle
wait is unguarded: the run aborts uncaught exactly when navigation
succeeds and the idle wait or the screenshot raises. -/
theorem claim2_amended_idle_best_effort :
    (∀ (env : Env) (g : String → Bool),
      verify_mobile_pages { env with idleTimesOut := g } = verify_mobile_pages env
      ∧ (verify_mobile_pages env).uncaught = false
      ∧ (verify_landing env).uncaught
          = (!env.gotoFails LANDING_URL
             && (env.idleTimesOut LANDING_URL
                 || env.screenshotFails "verification_landing.png"))
      ∧ (verify_landing_mobile env).uncaught
          = (!env.gotoFails LANDING_URL
             && (env.idleTimesOut LANDING_URL
                 || env.screenshotFails "verification_landing_mobile.png")))
    ∧ (verify_mobile_pages env_idle_timeout).files.length = 10 := by
  refine ⟨fun env g => ⟨rfl, rfl, ?_, ?_⟩, by decide⟩
  · cases h1 : env.gotoFails LANDING_URL <;>
      cases h2 : env.idleTimesOut LANDING_URL <;>
        cases h3 : env.screenshotFails "verification_landing.png" <;>
          simp [verify_landing, h1, h2, h3]
  · cases h1 : env.gotoFails LANDING_URL <;>
      cases h2 : env.idleTimesOut LANDING_URL <;>
        cases h3 : env.screenshotFails "verification_landing_mobile.png" <;>
          simp [verify_landing_mobile, h1, h2, h3]

/-- C4: When navigation raises in a single-route script, the exception
is caught: the routine writes no file, lets nothing escape uncaught,
closes the browser, and never reaches the screenshot step. -/
theorem claim4_single_route_unreachable (env : Env)
    (h : env.gotoFails LANDING_URL = true) :
    (verify_landing env).files = []
    ∧ (verify_landing env).uncaught = false
    ∧ Event.closeBrowser ∈ (verify_landing env).trace
    ∧ (verify_landing env).trace.countP isScreenshot = 0
    ∧ (verify_landing_mobile env).files = []
    ∧ (verify_landing_mobile env).uncaught = false
    ∧ Event.closeBrowser ∈ (verify_landing_mobile env).trace
    ∧ (verify_landing_mobile env).trace.countP isScreenshot = 0 := by
  simp [verify_landing, verify_landing_mobile, h, isScreenshot,
    List.countP_cons]

/-- Witness for C4 in the environment where the server is unreachable. -/
theorem claim4_witness :
    env_server_down.gotoFails LANDING_URL = true
    ∧ ((verify_landing env_server_down).files = []
       ∧ (verify_landing env_server_down).uncaught = false
       ∧ Event.closeBrowser ∈ (verify_landing env_server_down).trace
       ∧ (verify_landing env_server_down).trace.countP isScreenshot = 0
       ∧ (verify_landing_mobile env_server_down).files = []
       ∧ (verify_landing_mobile env_server_down).uncaught = false
       ∧ Event.closeBrowser ∈ (verify_landing_mobile env_server_down).trace
       ∧ (verify_landing_mobile env_server_down).trace.countP isScreenshot
           = 0) :=
  ⟨by decide, claim4_single_route_unreachable env_server_down (by decide)⟩

/-- Counterexample to C5: in an all-success run of the multi-route
runner, all ten routes are navigated but only a single page-creation
event occurs — the page is not created per route. -/
theorem claim5_counterexample :
    (verify_mobile_pages env_ok).trace.countP isNewPage = 1
    ∧ PAGES.length = 10
    ∧ (gotoEvents (verify_mobile_pages env_ok)).length = 10 := by
  decide

/-- C5 amended: each script creates exactly one browser, one browsing
context and one page per invocation; the multi-route runner opens its
single page in the shared context once, before the loop, and reuses it
for every route. -/
theorem claim5_amended_single_page (env : Env) :
    (verify_mobile_pages env).trace.countP isLaunch = 1
    ∧ (verify_mobile_pages env).trace.countP isNewContext = 1
    ∧ (verify_mobile_pages env).trace.countP isNewPage = 1
    ∧ (verify_landing env).trace.countP isLaunch = 1
    ∧ (verify_landing env).trace.countP isNewContext = 1
    ∧ (verify_landing env).trace.countP isNewPage = 1
    ∧ (verify_landing_mobile env).trace.countP isLaunch = 1
    ∧ (verify_landing_mobile env).trace.countP isNewContext = 1
    ∧ (verify_landing_mobile env).trace.countP isNewPage = 1 := by
  refine ⟨?_, ?_, ?_, ?_, ?_, ?_, ?_, ?_, ?_⟩
  · rw [verify_mobile_pages_trace, List.countP_append, List.countP_append,
      loop_countP_setup env PAGES isLaunch
        (fun _ _ => rfl) (fun _ => rfl) (fun _ => rfl)]
    decide
  · rw [verify_mobile_pages_trace, List.countP_append, List.countP_append,
      loop_countP_setup env PAGES isNewContext
        (fun _ _ => rfl) (fun _ => rfl) (fun _ => rfl)]
    decide
  · rw [verify_mobile_pages_trace, List.countP_append, List.countP_append,
      loop_countP_setup env PAGES isNewPage
        (fun _ _ => rfl) (fun _ => rfl) (fun _ => rfl)]
    decide
  all_goals
    cases h1 : env.gotoFails LANDING_URL <;>
      cases h2 : env.idleTimesOut LANDING_URL <;>
        cases h3 : env.screenshotFails "verification_landing.png" <;>
          cases h4 : env.screenshotFails "verification_landing_mobile.png" <;>
            simp [verify_landing, verify_landing_mobile, h1, h2, h3, h4,
              isLaunch, isNewContext, isNewPage, List.countP_cons]

/-- Counterexample to C6: if the idle wait of verify_landing times out,
or the screenshot write of verify_landing_mobile raises, the routine
exits without any explicit browser-close action. -/
theorem claim6_counterexample :
    Event.closeBrowser ∉ (verify_landing env_idle_timeout).trace
    ∧ Event.closeBrowser ∉ (verify_landing_mobile env_screenshot_fail).trace := by
  decide

/-- C6 amended: in the single-page variants the explicit browser close
happens on the success path and on the navigation-failure path, but not
on every exit path: when the idle wait or the screenshot raises, the
exception escapes the routine without an explicit browser close. -/
theorem claim6_amended_close_paths (env : Env) :
    (Event.closeBrowser ∈ (verify_landing env).trace
      ↔ (env.gotoFails LANDING_URL = true
         ∨ (env.idleTimesOut LANDING_URL = false
            ∧ env.screenshotFails "verification_landing.png" = false)))
    ∧ (Event.closeBrowser ∈ (verify_landing_mobile env).trace
      ↔ (env.gotoFails LANDING_URL = true
         ∨ (env.idleTimesOut LANDING_URL = false
            ∧ env.screenshotFails "verification_landing_mobile.png"
                = false))) := by
  refine ⟨?_, ?_⟩
  · cases h1 : env.gotoFails LANDING_URL <;>
      cases h2 : env.idleTimesOut LANDING_URL <;>
        cases h3 : env.screenshotFails "verification_landing.png" <;>
          simp [verify_landing, h1, h2, h3]
  · cases h1 : env.gotoFails LANDING_URL <;>
      cases h2 : env.idleTimesOut LANDING_URL <;>
        cases h3 : env.screenshotFails "verification_landing_mobile.png" <;>
          simp [verify_landing_mobile, h1, h2, h3]

/-- Counterexample to C7: an idle-wait timeout in verify_landing_mobile
and a screenshot failure in verify_landing both escape the routine
uncaught, so those runs do not exit normally. -/
theorem claim7_counterexample :
    (verify_landing_mobile env_idle_timeout).uncaught = true
    ∧ (verify_landing env_screenshot_fail).uncaught = true := by
  decide

/-- C7 amended: the multi-route script swallows every per-route error
and exits normally under every combination of outcomes, navigating each
route exactly once with no retry; the single-route scripts handle only
navigation failure — an idle-wait timeout or screenshot error escapes
uncaught, so their process exit is normal exactly when navigation fails
or both later steps succeed. -/
theorem claim7_amended_exit_status (env : Env) :
    (verify_mobile_pages env).uncaught = false
    ∧ (gotoEvents (verify_mobile_pages env)).length = PAGES.length
    ∧ (verify_landing env).uncaught
        = (!env.gotoFails LANDING_URL
           && (env.idleTimesOut LANDING_URL
               || env.screenshotFails "verification_landing.png"))
    ∧ (verify_landing_mobile env).uncaught
        = (!env.gotoFails LANDING_URL
           && (env.idleTimesOut LANDING_URL
               || env.screenshotFails "verification_landing_mobile.png")) := by
  refine ⟨rfl, ?_, ?_, ?_⟩
  · simp [gotoEvents, verify_mobile_pages, List.filterMap_append,
      route_gotos_eq env PAGES, asGoto]
  · cases h1 : env.gotoFails LANDING_URL <;>
      cases h2 : env.idleTimesOut LANDING_URL <;>
        cases h3 : env.screenshotFails "verification_landing.png" <;>
          simp [verify_landing, h1, h2, h3]
  · cases h1 : env.gotoFails LANDING_URL <;>
      cases h2 : env.idleTimesOut LANDING_URL <;>
        cases h3 : env.screenshotFails "verification_landing_mobile.png" <;>
          simp [verify_landing_mobile, h1, h2, h3]

/-- C8: the multi-route mobile variant requests viewport 390 by 844 with
device scale factor 3 and the mobile and touch flags set, while the
desktop variant requests viewport 1440 by 3000 with no mobile emulation;
the two context configurations differ, and each script's run contains
its context-creation request. -/
theorem claim8_context_configs :
    mobile_context.viewportWidth = 390
    ∧ mobile_context.viewportHeight = 844
    ∧ mobile_context.deviceScaleFactor = some 3
    ∧ mobile_context.isMobile = true
    ∧ mobile_context.hasTouch = true
    ∧ landing_context.viewportWidth = 1440
    ∧ landing_context.viewportHeight = 3000
    ∧ landing_context.deviceScaleFactor = none
    ∧ landing_context.isMobile = false
    ∧ landing_context.hasTouch = false
    ∧ mobile_context ≠ landing_context
    ∧ (∀ env : Env,
        Event.newContext mobile_context ∈ (verify_mobile_pages env).trace
        ∧ Event.newContext landing_context ∈ (verify_landing env).trace) := by
  refine ⟨rfl, rfl, rfl, rfl, rfl, rfl, rfl, rfl, rfl, rfl, by decide,
    fun env => ⟨?_, ?_⟩⟩
  · simp [verify_mobile_pages]
  · cases h1 : env.gotoFails LANDING_URL <;>
      cases h2 : env.idleTimesOut LANDING_URL <;>
        cases h3 : env.screenshotFails "verification_landing.png" <;>
          simp [verify_landing, h1, h2, h3]

/-- C9: every navigation of every script targets the base URL composed
with a route path, with a 60 second timeout: the multi-route runner
attempts exactly its ten configured paths in list order, each once, and
the single-route scripts attempt exactly the path /landing. -/
theorem claim9_navigation_targets (env : Env) :
    gotoEvents (verify_mobile_pages env)
        = PAGES.map (fun p => (BASE_URL ++ p, 60000))
    ∧ gotoEvents (verify_landing env) = [(LANDING_URL, 60000)]
    ∧ gotoEvents (verify_landing_mobile env) = [(LANDING_URL, 60000)]
    ∧ BASE_URL ++ "/landing" = LANDING_URL
    ∧ PAGES.length = 10 := by
  refine ⟨?_, ?_, ?_, by decide, by decide⟩
  · simp [gotoEvents, verify_mobile_pages, List.filterMap_append,
      route_gotos_eq env PAGES, asGoto]
  · cases h1 : env.gotoFails LANDING_URL <;>
      cases h2 : env.idleTimesOut LANDING_URL <;>
        cases h3 : env.screenshotFails "verification_landing.png" <;>
          simp [gotoEvents, verify_landing, h1, h2, h3, asGoto]
  · cases h1 : env.gotoFails LANDING_URL <;>
      cases h2 : env.idleTimesOut LANDING_URL <;>
        cases h3 : env.screenshotFails "verification_landing_mobile.png" <;>
          simp [gotoEvents, verify_landing_mobile, h1, h2, h3, asGoto]

end OpenViber
